import Mathlib

/-!
# Verification of the GQCNN TensorFlow network builder and inference engine

This file gives a shallow embedding of `gqcnn/model/tf/network_tf.py` and
proves or refutes the frozen claims about it.

Modelling conventions:
* TensorFlow graph construction is pure symbolic-expression building, embedded
  as the inductive type `TExpr`.  Each `_build_*` method of `GQCNNTF` becomes a
  Lean function from its inputs and the mutable network state (the weight
  dictionary `self._weights.weights` and the feature dictionary
  `self._feature_tensors`) to its result plus the updated state.  Python
  exceptions become `Except String`; because the store lives on the instance,
  builders return the (possibly mutated) state even when they raise.
* Python dictionaries are insertion-ordered association lists: assignment to an
  existing key replaces in place, assignment to a fresh key appends.
* The batched inference loop of `predict` / `featurize` is embedded over `ℚ`,
  with one image (one row of the scratch buffer) abstracted to a single
  rational number; normalization `(x - mean) / std` acts on that number.  The
  pose and gripper scratch buffers follow the identical write pattern as the
  image buffer and are absorbed by the same abstraction.  The models cover the
  default `gripper_depth_mask=False` path (the depth-mask branch only rewrites
  rows below `dim`, which the abstraction absorbs).
* The code is Python 2 (`iteritems`, bare `reduce`, `keys()[0]`), so `/` on
  integers is floor division, embedded as `Nat` division.
-/

/-- Decidable equality for `Except` results (Python call outcomes), so that
concrete counterexamples can be checked by `decide`. -/
instance {ε α : Type} [DecidableEq ε] [DecidableEq α] : DecidableEq (Except ε α) := fun a b =>
  match a, b with
  | Except.ok x, Except.ok y =>
    if h : x = y then isTrue (by rw [h]) else isFalse (by simp [h])
  | Except.error x, Except.error y =>
    if h : x = y then isTrue (by rw [h]) else isFalse (by simp [h])
  | Except.ok _, Except.error _ => isFalse (by simp)
  | Except.error _, Except.ok _ => isFalse (by simp)

/-- Symbolic TensorFlow tensor expressions, as constructed by the graph-building
methods of `GQCNNTF`.  Variable initializers are themselves expressions;
`truncatedNormal shape fanIn` records `tf.truncated_normal(shape,
stddev=sqrt(2/fan_in))` by its shape and fan-in (the stddev is determined by
`fanIn`). -/
inductive TExpr where
  | placeholder (name : String)
  | tfVar (name : String) (init : TExpr)
  | truncatedNormal (shape : List Nat) (fanIn : Nat)
  | constantFill (value : ℚ) (shape : List Nat)
  | constVec (values : List ℚ)
  | zeros (shape : List Nat)
  | ckptTensor (fullVarName : String)
  | matmul (a b : TExpr)
  | add (a b : TExpr)
  | conv2d (x w : TExpr) (padding : String)
  | maxPool (x : TExpr) (poolSize strideH strideW : Nat) (padding : String)
  | lrn (x : TExpr)
  | leakyRelu (x : TExpr)
  | batchNorm (x : TExpr)
  | dropout (x : TExpr)
  | flattenT (x : TExpr)
  | fcReshape (src : TExpr) (filterDim : Nat)
  | pack (dimOf : TExpr) (data : TExpr) (vector : Bool)
  | transformerT (x loc : TExpr) (outWidth outHeight : Nat)
  deriving DecidableEq, Repr

/-- The weight dictionary `self._weights.weights` (and likewise the feature
dictionary `self._feature_tensors`): an insertion-ordered string-keyed map. -/
abbrev Store : Type := List (String × TExpr)

/-- Lookup `key in dict.keys()` / `dict[key]` lookup (first, i.e. unique, match). -/
def dictGet? (s : Store) (k : String) : Option TExpr :=
  (s.find? (fun p => p.1 == k)).map (fun p => p.2)

/-- Python dict assignment `dict[key] = v`: replaces in place if the key
exists, otherwise appends (insertion order preserved). -/
def dictInsert (s : Store) (k : String) (v : TExpr) : Store :=
  if s.any (fun p => p.1 == k) then
    s.map (fun p => if p.1 == k then (k, v) else p)
  else
    s ++ [(k, v)]

/-- The mutable state a `GQCNNTF` instance carries through graph construction:
the weight store and the feature-tensor registry. -/
structure NetState where
  weights : Store
  features : Store
  deriving DecidableEq, Repr

def emptyNetState : NetState := ⟨[], []⟩

/-- Update the weight store of a state. -/
def setWeights (st : NetState) (w : Store) : NetState := ⟨w, st.features⟩

/-- Assignment `self._feature_tensors[name] = t`. -/
def setFeature (st : NetState) (name : String) (t : TExpr) : NetState :=
  ⟨st.weights, dictInsert st.features name t⟩

/-- Embeds `GQCNNTF._leaky_relu` (alpha = 0.1): `tf.maximum(alpha * x, x)`. -/
def leaky_relu (x : TExpr) : TExpr := TExpr.leakyRelu x

/-- Embeds `GQCNNTF._build_conv_layer` (network_tf.py lines 710-774).  Reuses
`{name}_weights` / `{name}_bias` if present, otherwise creates them with
truncated-normal initialization at std `sqrt(2 / (filter_h * filter_w *
input_channels))`.  The recorded output spatial dims are
`input_height / pool_stride_h` and `input_width / pool_stride_w` with Python 2
integer (floor) division.  Returns `(pool, out_height, out_width,
out_channels)`. -/
def build_conv_layer (input_node : TExpr)
    (input_height input_width input_channels : Nat)
    (filter_h filter_w num_filt pool_stride_h pool_stride_w pool_size : Nat)
    (name : String) (norm : Bool) (st : NetState) :
    Except String (TExpr × Nat × Nat × Nat) × NetState :=
  let wkey := name ++ "_weights"
  let bkey := name ++ "_bias"
  let body := fun (convW convb : TExpr) (st : NetState) =>
    let out_height := input_height / pool_stride_h
    let out_width := input_width / pool_stride_w
    let out_channels := num_filt
    let convh := TExpr.add (TExpr.conv2d input_node convW "SAME") convb
    let convh := leaky_relu convh
    let convh := if norm then TExpr.lrn convh else convh
    let pool := TExpr.maxPool convh pool_size pool_stride_h pool_stride_w "SAME"
    let st := setFeature st name pool
    (Except.ok (pool, out_height, out_width, out_channels), st)
  match dictGet? st.weights wkey with
  | some convW =>
    match dictGet? st.weights bkey with
    | some convb => body convW convb st
    | none => (Except.error ("KeyError: " ++ bkey), st)
  | none =>
    let fan_in := filter_h * filter_w * input_channels
    let convW := TExpr.tfVar wkey
      (TExpr.truncatedNormal [filter_h, filter_w, input_channels, num_filt] fan_in)
    let convb := TExpr.tfVar bkey (TExpr.truncatedNormal [num_filt] fan_in)
    let st := setWeights st (dictInsert (dictInsert st.weights wkey convW) bkey convb)
    body convW convb st

/-- Embeds `GQCNNTF._build_spatial_transformer` (lines 681-708).  Reuses
`{name}_weights` / `{name}_bias` if present; otherwise the weights are
initialized to zeros and the bias to the flattened `[[0.5, 0, 0], [0, 0.5, 0]]`.
The localisation network is `tf.matmul(tf.zeros([batch, h*w*c]), transformW) +
transformb` — note the zeros tensor, built from the *shape* of the input, not
the input itself.  Returns `(transform_layer, output_height, output_width,
input_channels)`. -/
def build_spatial_transformer (input_node : TExpr) (batch_dim : Nat)
    (input_height input_width input_channels num_transform_params : Nat)
    (output_width output_height : Nat) (name : String) (st : NetState) :
    Except String (TExpr × Nat × Nat × Nat) × NetState :=
  let wkey := name ++ "_weights"
  let bkey := name ++ "_bias"
  let body := fun (transformW transformb : TExpr) (st : NetState) =>
    let loc_network := TExpr.add
      (TExpr.matmul (TExpr.zeros [batch_dim, input_height * input_width * input_channels])
        transformW)
      transformb
    let transform_layer := TExpr.transformerT input_node loc_network output_width output_height
    let st := setFeature st name transform_layer
    (Except.ok (transform_layer, output_height, output_width, input_channels), st)
  match dictGet? st.weights wkey with
  | some transformW =>
    match dictGet? st.weights bkey with
    | some transformb => body transformW transformb st
    | none => (Except.error ("KeyError: " ++ bkey), st)
  | none =>
    let transformW := TExpr.tfVar wkey
      (TExpr.zeros [input_height * input_width * input_channels, num_transform_params])
    let transformb := TExpr.tfVar bkey
      (TExpr.constVec [1/2, 0, 0, 0, 1/2, 0])
    let st := setWeights st (dictInsert (dictInsert st.weights wkey transformW) bkey transformb)
    body transformW transformb st

/-- Embeds `GQCNNTF._build_fc_layer` (lines 843-876).  Reuses `{name}_weights` /
`{name}_bias` if present; otherwise creates them (bias is zero-filled for the
final fc layer).  Flattens multi-dimensional input, applies matmul + bias,
leaky-ReLU unless final, then dropout. -/
def build_fc_layer (input_node : TExpr) (fan_in out_size : Nat) (name : String)
    (input_is_multi : Bool) (final_fc_layer : Bool) (st : NetState) :
    Except String (TExpr × Nat) × NetState :=
  let wkey := name ++ "_weights"
  let bkey := name ++ "_bias"
  let body := fun (fcW fcb : TExpr) (st : NetState) =>
    let input_node := if input_is_multi then TExpr.flattenT input_node else input_node
    let fc := if final_fc_layer then TExpr.add (TExpr.matmul input_node fcW) fcb
              else leaky_relu (TExpr.add (TExpr.matmul input_node fcW) fcb)
    let fc := TExpr.dropout fc
    let st := setFeature st name fc
    (Except.ok (fc, out_size), st)
  match dictGet? st.weights wkey with
  | some fcW =>
    match dictGet? st.weights bkey with
    | some fcb => body fcW fcb st
    | none => (Except.error ("KeyError: " ++ bkey), st)
  | none =>
    let fcW := TExpr.tfVar wkey (TExpr.truncatedNormal [fan_in, out_size] fan_in)
    let fcb := if final_fc_layer then TExpr.tfVar bkey (TExpr.constantFill 0 [out_size])
               else TExpr.tfVar bkey (TExpr.truncatedNormal [out_size] fan_in)
    let st := setWeights st (dictInsert (dictInsert st.weights wkey fcW) bkey fcb)
    body fcW fcb st

/-- Embeds `GQCNNTF._build_pc_layer` (lines 878-903): dense + leaky-ReLU over the pose
stream, with the same reuse-or-create weight handling. -/
def build_pc_layer (input_node : TExpr) (fan_in out_size : Nat) (name : String)
    (st : NetState) : Except String (TExpr × Nat) × NetState :=
  let wkey := name ++ "_weights"
  let bkey := name ++ "_bias"
  let body := fun (pcW pcb : TExpr) (st : NetState) =>
    let pc := leaky_relu (TExpr.add (TExpr.matmul input_node pcW) pcb)
    let st := setFeature st name pc
    (Except.ok (pc, out_size), st)
  match dictGet? st.weights wkey with
  | some pcW =>
    match dictGet? st.weights bkey with
    | some pcb => body pcW pcb st
    | none => (Except.error ("KeyError: " ++ bkey), st)
  | none =>
    let pcW := TExpr.tfVar wkey (TExpr.truncatedNormal [fan_in, out_size] fan_in)
    let pcb := TExpr.tfVar bkey (TExpr.truncatedNormal [out_size] fan_in)
    let st := setWeights st (dictInsert (dictInsert st.weights wkey pcW) bkey pcb)
    body pcW pcb st

/-- Embeds `GQCNNTF._build_gc_layer` (lines 905-930): identical shape to the pc layer,
over the gripper stream. -/
def build_gc_layer (input_node : TExpr) (fan_in out_size : Nat) (name : String)
    (st : NetState) : Except String (TExpr × Nat) × NetState :=
  let wkey := name ++ "_weights"
  let bkey := name ++ "_bias"
  let body := fun (gcW gcb : TExpr) (st : NetState) =>
    let gc := leaky_relu (TExpr.add (TExpr.matmul input_node gcW) gcb)
    let st := setFeature st name gc
    (Except.ok (gc, out_size), st)
  match dictGet? st.weights wkey with
  | some gcW =>
    match dictGet? st.weights bkey with
    | some gcb => body gcW gcb st
    | none => (Except.error ("KeyError: " ++ bkey), st)
  | none =>
    let gcW := TExpr.tfVar wkey (TExpr.truncatedNormal [fan_in, out_size] fan_in)
    let gcb := TExpr.tfVar bkey (TExpr.truncatedNormal [out_size] fan_in)
    let st := setWeights st (dictInsert (dictInsert st.weights wkey gcW) bkey gcb)
    body gcW gcb st

/-- Embeds `GQCNNTF._build_fc_merge` (lines 932-984): two- or three-input merge with
independent per-input weight matrices, shared bias (fan-in-scaled with the sum
of all input fan-ins), leaky-ReLU and dropout.  Presence is checked on
`{name}_input_1_weights` only; the remaining keys are then read directly. -/
def build_fc_merge (input_fc_node_1 input_fc_node_2 : TExpr)
    (fan_in_1 fan_in_2 out_size : Nat) (name : String)
    (input_fc_node_3 : Option TExpr) (fan_in_3 : Option Nat) (st : NetState) :
    Except String (TExpr × Nat) × NetState :=
  let k1 := name ++ "_input_1_weights"
  let k2 := name ++ "_input_2_weights"
  let k3 := name ++ "_input_3_weights"
  let bkey := name ++ "_bias"
  match input_fc_node_3 with
  | some node3 =>
    let body := fun (input1W input2W input3W fcb : TExpr) (st : NetState) =>
      let fc := leaky_relu (TExpr.add
        (TExpr.add (TExpr.add (TExpr.matmul input_fc_node_1 input1W)
          (TExpr.matmul input_fc_node_2 input2W)) (TExpr.matmul node3 input3W)) fcb)
      let fc := TExpr.dropout fc
      let st := setFeature st name fc
      (Except.ok (fc, out_size), st)
    match dictGet? st.weights k1 with
    | some input1W =>
      match dictGet? st.weights k2, dictGet? st.weights k3, dictGet? st.weights bkey with
      | some input2W, some input3W, some fcb => body input1W input2W input3W fcb st
      | _, _, _ => (Except.error "KeyError", st)
    | none =>
      let fan := fan_in_1 + fan_in_2 + fan_in_3.getD 0
      let input1W := TExpr.tfVar k1 (TExpr.truncatedNormal [fan_in_1, out_size] fan)
      let input2W := TExpr.tfVar k2 (TExpr.truncatedNormal [fan_in_2, out_size] fan)
      let input3W := TExpr.tfVar k3 (TExpr.truncatedNormal [fan_in_3.getD 0, out_size] fan)
      let fcb := TExpr.tfVar bkey (TExpr.truncatedNormal [out_size] fan)
      let w := dictInsert (dictInsert (dictInsert (dictInsert st.weights k1 input1W)
        k2 input2W) k3 input3W) bkey fcb
      body input1W input2W input3W fcb (setWeights st w)
  | none =>
    let body := fun (input1W input2W fcb : TExpr) (st : NetState) =>
      let fc := leaky_relu (TExpr.add
        (TExpr.add (TExpr.matmul input_fc_node_1 input1W)
          (TExpr.matmul input_fc_node_2 input2W)) fcb)
      let fc := TExpr.dropout fc
      let st := setFeature st name fc
      (Except.ok (fc, out_size), st)
    match dictGet? st.weights k1 with
    | some input1W =>
      match dictGet? st.weights k2, dictGet? st.weights bkey with
      | some input2W, some fcb => body input1W input2W fcb st
      | _, _ => (Except.error "KeyError", st)
    | none =>
      let fan := fan_in_1 + fan_in_2
      let input1W := TExpr.tfVar k1 (TExpr.truncatedNormal [fan_in_1, out_size] fan)
      let input2W := TExpr.tfVar k2 (TExpr.truncatedNormal [fan_in_2, out_size] fan)
      let fcb := TExpr.tfVar bkey (TExpr.truncatedNormal [out_size] fan)
      let w := dictInsert (dictInsert (dictInsert st.weights k1 input1W) k2 input2W) bkey fcb
      body input1W input2W fcb (setWeights st w)

/-- Embeds `GQCNNTF._build_batch_norm` (lines 986-989):
`tf.layers.batch_normalization(x, epsilon=1e-3)`. -/
def build_batch_norm (input_node : TExpr) : TExpr := TExpr.batchNorm input_node

/-- Embeds `GQCNNTF._build_residual_layer` (lines 991-1028).  Reuse is keyed on
`{name}_conv1_weights`.  The body is
`x = [BN + ReLU +] Conv1 + BN + ReLU + Conv2`, the leading BN+ReLU skipped when
`first` is true, and the output is `input + x`.  Returns `(output, num_filt)`. -/
def build_residual_layer (input_node : TExpr)
    (input_channels fan_in num_filt filt_h filt_w : Nat)
    (name : String) (first : Bool) (st : NetState) :
    Except String (TExpr × Nat) × NetState :=
  let k1w := name ++ "_conv1_weights"
  let k1b := name ++ "_conv1_bias"
  let k2w := name ++ "_conv2_weights"
  let k2b := name ++ "_conv2_bias"
  let body := fun (conv1W conv1b conv2W conv2b : TExpr) (st : NetState) =>
    let output_node := input_node
    let output_node := if !first then leaky_relu (build_batch_norm output_node)
                       else output_node
    let output_node := TExpr.add (TExpr.conv2d output_node conv1W "SAME") conv1b
    let output_node := leaky_relu (build_batch_norm output_node)
    let output_node := TExpr.add (TExpr.conv2d output_node conv2W "SAME") conv2b
    let output_node := TExpr.add input_node output_node
    let st := setFeature st name output_node
    (Except.ok (output_node, num_filt), st)
  match dictGet? st.weights k1w with
  | some conv1W =>
    match dictGet? st.weights k1b, dictGet? st.weights k2w, dictGet? st.weights k2b with
    | some conv1b, some conv2W, some conv2b => body conv1W conv1b conv2W conv2b st
    | _, _, _ => (Except.error "KeyError", st)
  | none =>
    let conv1W := TExpr.tfVar k1w
      (TExpr.truncatedNormal [filt_h, filt_w, input_channels, num_filt] fan_in)
    let conv1b := TExpr.tfVar k1b (TExpr.truncatedNormal [num_filt] fan_in)
    let conv2W := TExpr.tfVar k2w
      (TExpr.truncatedNormal [filt_h, filt_w, num_filt, num_filt] fan_in)
    let conv2b := TExpr.tfVar k2b (TExpr.truncatedNormal [num_filt] fan_in)
    let w := dictInsert (dictInsert (dictInsert (dictInsert st.weights k1w conv1W)
      k1b conv1b) k2w conv2W) k2b conv2b
    body conv1W conv1b conv2W conv2b (setWeights st w)

/-- Embeds `GQCNNTF._build_fully_conv_layer` (lines 792-813).  Unconditionally creates
a fresh variable reshaping the dense weights into a convolution kernel and
stores it under `{fc_name}_fully_conv_weights` — overwriting any existing
entry — before reading the bias.  No feature tensor is registered. -/
def build_fully_conv_layer (input_node : TExpr) (filter_dim : Nat)
    (fc_name : String) (st : NetState) : Except String TExpr × NetState :=
  match dictGet? st.weights (fc_name ++ "_weights") with
  | none => (Except.error ("KeyError: " ++ fc_name ++ "_weights"), st)
  | some fcW =>
    let convW := TExpr.tfVar (fc_name ++ "_fully_conv_weights") (TExpr.fcReshape fcW filter_dim)
    let st := setWeights st
      (dictInsert st.weights (fc_name ++ "_fully_conv_weights") convW)
    match dictGet? st.weights (fc_name ++ "_bias") with
    | none => (Except.error ("KeyError: " ++ fc_name ++ "_bias"), st)
    | some convb =>
      let convh := TExpr.conv2d input_node convW "VALID"
      let bias_packed := TExpr.pack convh convb true
      let convh := TExpr.add convh bias_packed
      (Except.ok (leaky_relu convh), st)

/-- Embeds `GQCNNTF._build_fully_conv_merge_layer` (lines 815-841).  Same
unconditional overwrite for `{fc_name}_im_fully_conv_weights`. -/
def build_fully_conv_merge_layer (input_node_im input_node_pose : TExpr)
    (filter_dim : Nat) (fc_name : String) (st : NetState) :
    Except String TExpr × NetState :=
  match dictGet? st.weights (fc_name ++ "_input_1_weights") with
  | none => (Except.error ("KeyError: " ++ fc_name ++ "_input_1_weights"), st)
  | some fcW_im =>
    let convW := TExpr.tfVar (fc_name ++ "_im_fully_conv_weights")
      (TExpr.fcReshape fcW_im filter_dim)
    let st := setWeights st
      (dictInsert st.weights (fc_name ++ "_im_fully_conv_weights") convW)
    let convh_im := TExpr.conv2d input_node_im convW "VALID"
    match dictGet? st.weights (fc_name ++ "_input_2_weights") with
    | none => (Except.error ("KeyError: " ++ fc_name ++ "_input_2_weights"), st)
    | some fcW_pose =>
      let pose_out := TExpr.matmul input_node_pose fcW_pose
      let pose_packed := TExpr.pack convh_im pose_out false
      let convh := TExpr.add convh_im pose_packed
      match dictGet? st.weights (fc_name ++ "_bias") with
      | none => (Except.error ("KeyError: " ++ fc_name ++ "_bias"), st)
      | some fc_bias =>
        let bias_packed := TExpr.pack convh_im fc_bias true
        (Except.ok (leaky_relu (TExpr.add convh bias_packed)), st)

/-- The layer `type` strings of the architecture config. -/
inductive LayerType where
  | spatialTransformerType
  | convType
  | fcType
  | pcType
  | gcType
  | fcMergeType
  | residualType
  deriving DecidableEq, Repr

/-- One layer specification of the architecture dictionary.  Type determines
which parameter fields are read; unread fields are ignored (Python would raise
`KeyError` on a genuinely missing key, which no claim exercises). -/
structure LayerConfig where
  type_ : LayerType
  filt_dim : Nat
  num_filt : Nat
  pool_stride : Nat
  pool_size : Nat
  norm : Bool
  out_size : Nat
  num_transform_params : Nat
  deriving DecidableEq, Repr

/-- A conv layer spec with the given parameters. -/
def convSpec (filt_dim num_filt pool_stride pool_size : Nat) (norm : Bool) : LayerConfig :=
  ⟨LayerType.convType, filt_dim, num_filt, pool_stride, pool_size, norm, 0, 0⟩

/-- A pc layer spec. -/
def pcSpec (out_size : Nat) : LayerConfig :=
  ⟨LayerType.pcType, 0, 0, 1, 0, false, out_size, 0⟩

/-- An fc layer spec. -/
def fcSpec (out_size : Nat) : LayerConfig :=
  ⟨LayerType.fcType, 0, 0, 1, 0, false, out_size, 0⟩

/-- A residual layer spec. -/
def residualSpec (filt_dim num_filt : Nat) : LayerConfig :=
  ⟨LayerType.residualType, filt_dim, num_filt, 1, 0, false, 0, 0⟩

/-- The running state of `GQCNNTF._build_im_stream`'s loop: current output
node, spatial metadata, the `prev_layer` tag, the `first_residual` flag, the
running `filter_dim`, the (possibly still unbound) `fan_in` local, the network
state, and — for observation in the theorems below — the trace of
`(layer_name, first)` arguments passed to `_build_residual_layer`. -/
structure ImStreamLoopState where
  output_node : TExpr
  input_height : Nat
  input_width : Nat
  input_channels : Nat
  prev_layer : String
  first_residual : Bool
  filter_dim : Nat
  fan_in : Option Nat
  st : NetState
  res_trace : List (String × Bool)
  deriving Repr

/-- One iteration of the `for layer_name, layer_config in layers.iteritems()`
loop of `GQCNNTF._build_im_stream` (lines 1037-1081). -/
def im_stream_step (fully_conv : Bool) (batch_dim : Nat)
    (s : ImStreamLoopState) (layer_name : String) (layer_config : LayerConfig) :
    Except String ImStreamLoopState × NetState :=
  match layer_config.type_ with
  | LayerType.spatialTransformerType =>
    match build_spatial_transformer s.output_node batch_dim s.input_height s.input_width
        s.input_channels layer_config.num_transform_params layer_config.out_size
        layer_config.out_size layer_name s.st with
    | (Except.ok (node, h, w, c), st) =>
      (Except.ok ⟨node, h, w, c, "spatial_transformer", true, s.filter_dim, s.fan_in, st,
        s.res_trace⟩, st)
    | (Except.error e, st) => (Except.error e, st)
  | LayerType.convType =>
    if s.prev_layer == "fc" then
      (Except.error "Cannot have conv layer after fc layer", s.st)
    else
      match build_conv_layer s.output_node s.input_height s.input_width s.input_channels
          layer_config.filt_dim layer_config.filt_dim layer_config.num_filt
          layer_config.pool_stride layer_config.pool_stride layer_config.pool_size
          layer_name layer_config.norm s.st with
      | (Except.ok (node, h, w, c), st) =>
        (Except.ok ⟨node, h, w, c, "conv", true, s.filter_dim / layer_config.pool_stride,
          s.fan_in, st, s.res_trace⟩, st)
      | (Except.error e, st) => (Except.error e, st)
  | LayerType.fcType =>
    let prev_is_conv_or_res := s.prev_layer == "conv" || s.prev_layer == "residual"
    let fan_in := if prev_is_conv_or_res then
        some (s.input_height * s.input_width * s.input_channels)
      else s.fan_in
    if fully_conv then
      match build_fully_conv_layer s.output_node s.filter_dim layer_name s.st with
      | (Except.ok node, st) =>
        (Except.ok ⟨node, s.input_height, s.input_width, s.input_channels, s.prev_layer,
          true, s.filter_dim, fan_in, st, s.res_trace⟩, st)
      | (Except.error e, st) => (Except.error e, st)
    else
      match fan_in with
      | none => (Except.error "NameError: fan_in", s.st)
      | some f =>
        match build_fc_layer s.output_node f layer_config.out_size layer_name
            prev_is_conv_or_res false s.st with
        | (Except.ok (node, fan_out), st) =>
          (Except.ok ⟨node, s.input_height, s.input_width, s.input_channels, "fc", true, 1,
            some fan_out, st, s.res_trace⟩, st)
        | (Except.error e, st) => (Except.error e, st)
  | LayerType.pcType =>
    (Except.error "Cannot have pose-connected layer in image stream", s.st)
  | LayerType.fcMergeType =>
    (Except.error "Cannot have merge layer in image stream", s.st)
  | LayerType.residualType =>
    let fan_in := s.input_height * s.input_width * s.input_channels
    match build_residual_layer s.output_node s.input_channels fan_in layer_config.num_filt
        layer_config.filt_dim layer_config.filt_dim layer_name s.first_residual s.st with
    | (Except.ok (node, c), st) =>
      (Except.ok ⟨node, s.input_height, s.input_width, c, "residual", false, s.filter_dim,
        some fan_in, st, s.res_trace ++ [(layer_name, s.first_residual)]⟩, st)
    | (Except.error e, st) => (Except.error e, st)
  | LayerType.gcType =>
    (Except.error "Unsupported layer type: gc", s.st)

/-- The loop of `GQCNNTF._build_im_stream` over the remaining layers. -/
def im_stream_loop (fully_conv : Bool) (batch_dim : Nat)
    (s : ImStreamLoopState) : List (String × LayerConfig) →
    Except String ImStreamLoopState × NetState
  | [] => (Except.ok s, s.st)
  | (layer_name, layer_config) :: rest =>
    match im_stream_step fully_conv batch_dim s layer_name layer_config with
    | (Except.ok s', _) => im_stream_loop fully_conv batch_dim s' rest
    | (Except.error e, st) => (Except.error e, st)

/-- Embeds `GQCNNTF._build_im_stream` (lines 1031-1083).  Returns
`(output_node, fan_in)` (raising `NameError` if `fan_in` was never assigned),
the final network state (also on error, since the weight and feature stores are
instance state), and the trace of residual-layer `first` flags. -/
def build_im_stream (fully_conv : Bool) (batch_dim : Nat) (train_im_width : Nat)
    (input_node : TExpr) (input_height input_width input_channels : Nat)
    (layers : List (String × LayerConfig)) (st : NetState) :
    Except String (TExpr × Nat) × NetState × List (String × Bool) :=
  let s0 : ImStreamLoopState :=
    ⟨input_node, input_height, input_width, input_channels, "start", true,
      train_im_width, none, st, []⟩
  match im_stream_loop fully_conv batch_dim s0 layers with
  | (Except.ok s, _) =>
    match s.fan_in with
    | some f => (Except.ok (s.output_node, f), s.st, s.res_trace)
    | none => (Except.error "NameError: fan_in", s.st, s.res_trace)
  | (Except.error e, st) => (Except.error e, st, [])

/-- Parameters of the batched inference loop: the configured batch size, the
image normalization statistics, and the opaque graph execution
`self._sess.run(self._output_tensor, ...)`, which maps the batch-size scratch
buffer to the batch-size output (`ℚ` per row, see the file header). -/
structure PredictEnv where
  batchSize : Nat
  imMean : ℚ
  imStd : ℚ
  run : List ℚ → List ℚ

/-- numpy slice assignment `arr[i:i+len(vals)] = vals` (row-count preserving
whenever `i + vals.length ≤ arr.length`). -/
def writeSlice (arr : List ℚ) (i : Nat) (vals : List ℚ) : List ℚ :=
  arr.take i ++ vals ++ arr.drop (i + vals.length)

/-- numpy prefix assignment `buf[:dim] = vals` on the scratch buffer: only the
first `vals.length` rows are overwritten, the tail keeps its previous
contents. -/
def overwriteFront (buf vals : List ℚ) : List ℚ :=
  vals ++ buf.drop vals.length

/-- The `while i < num_images` loop of `GQCNNTF.predict` (lines 591-629),
with fuel (each iteration advances `i` by `dim = min(batch_size, n - i)`, so
`fuel = n` suffices when `batch_size ≥ 1`; `batch_size = 0` would loop forever
in Python).  State: current index `i`, the scratch image buffer
`self._input_im_arr`, and the lazily allocated `output_arr`.  Returns the final
`output_arr` (still `none` if the loop never ran) and the scratch buffer as it
was when the last chunk was executed. -/
def predictLoop (env : PredictEnv) (images : List ℚ) (n : Nat) :
    Nat → Nat → List ℚ → Option (List ℚ) → Option (List ℚ) × List ℚ
  | 0, _, buf, out => (out, buf)
  | fuel + 1, i, buf, out =>
    if i < n then
      let dim := min env.batchSize (n - i)
      let chunk := ((images.drop i).take dim).map (fun x => (x - env.imMean) / env.imStd)
      let buf' := overwriteFront buf chunk
      let gqcnn_output := env.run buf'
      let out' := match out with
        | none => List.replicate n (0 : ℚ)
        | some a => a
      let out'' := writeSlice out' i (gqcnn_output.take dim)
      predictLoop env images n fuel (i + dim) buf' (some out'')
    else
      (out, buf)

/-- Embeds `GQCNNTF.predict` (lines 560-630), also exposing the final state of the
scratch image buffer (instance state `self._input_im_arr`, observable after
the call).  Checks image/pose (and gripper) counts, then requires an open
session, then runs the chunked loop starting from the zero-initialized scratch
buffer allocated in `initialize_network` (lines 302-305).  Returns
`output_arr`, which is `None` when the loop never executed. -/
def predictRun (env : PredictEnv) (sessOpen : Bool) (images poses : List ℚ)
    (grippers : Option (List ℚ)) : Except String (Option (List ℚ) × List ℚ) :=
  let num_images := images.length
  if images.length ≠ poses.length then
    Except.error "Must provide same number of images and poses"
  else if grippers.any (fun g => num_images != g.length) then
    Except.error "Must provide same number of images and gripper parameters"
  else if !sessOpen then
    Except.error "No TF session open. Please call open_session() first."
  else
    Except.ok (predictLoop env images num_images num_images 0
      (List.replicate env.batchSize 0) none)

/-- The value `predict` returns to the caller. -/
def predict (env : PredictEnv) (sessOpen : Bool) (images poses : List ℚ)
    (grippers : Option (List ℚ)) : Except String (Option (List ℚ)) :=
  (predictRun env sessOpen images poses grippers).map (fun r => r.1)

/-- Parameters of `featurize`'s loop: batch size, image normalization, and the
fallible graph execution `self._sess.run(self._feature_tensors[layer], ...)`
(e.g. an internal TensorFlow error aborts the loop). -/
structure FeaturizeEnv where
  batchSize : Nat
  imMean : ℚ
  imStd : ℚ
  runFeature : List ℚ → Except String (List ℚ)

/-- The chunked loop of `GQCNNTF.featurize` (lines 651-670): like
`predictLoop`, but per-chunk outputs are concatenated with `np.r_` and an
execution error propagates. -/
def featurizeLoop (env : FeaturizeEnv) (images : List ℚ) (n : Nat) :
    Nat → Nat → List ℚ → Option (List ℚ) → Except String (Option (List ℚ))
  | 0, _, _, out => Except.ok out
  | fuel + 1, i, buf, out =>
    if i < n then
      let dim := min env.batchSize (n - i)
      let chunk := ((images.drop i).take dim).map (fun x => (x - env.imMean) / env.imStd)
      let buf' := overwriteFront buf chunk
      match env.runFeature buf' with
      | Except.error e => Except.error e
      | Except.ok gqcnn_output =>
        let out' := match out with
          | none => gqcnn_output
          | some a => a ++ gqcnn_output
        featurizeLoop env images n fuel (i + dim) buf' (some out')
    else
      Except.ok out

/-- Embeds `GQCNNTF.featurize` (lines 632-676).  Returns the result (or the
propagated error) together with whether a session is open afterwards.  The
early validation errors leave the session state unchanged; if no session was
open, one is opened before the loop (`close_sess = True`); after a successful
loop the transient session is closed — but an error raised inside the loop
propagates immediately, *without* closing the session. -/
def featurize (env : FeaturizeEnv) (sessOpen : Bool)
    (registeredFeatures : List String) (feature_layer : String)
    (images poses : List ℚ) : Except String (List ℚ) × Bool :=
  if !(registeredFeatures.contains feature_layer) then
    (Except.error ("Feature layer " ++ feature_layer ++ " not recognized"), sessOpen)
  else
    let num_images := images.length
    if images.length ≠ poses.length then
      (Except.error "Must provide same number of images and poses", sessOpen)
    else
      let close_sess := !sessOpen
      match featurizeLoop env images num_images num_images 0
          (List.replicate env.batchSize 0) none with
      | Except.error e => (Except.error e, true)
      | Except.ok out =>
        let sessAfter := if close_sess then false else true
        match out with
        | none =>
          (Except.error "TypeError: NoneType object is not subscriptable", sessAfter)
        | some arr => (Except.ok (arr.take num_images), sessAfter)

/-- Dot product of two rational vectors (`tf.matmul` inner loop; `zipWith`
truncation never fires on the well-formed shapes the theorems use). -/
def dotProd (u v : List ℚ) : ℚ := (List.zipWith (fun a b => a * b) u v).sum

/-- Column `j` of a matrix stored as a list of rows. -/
def matCol (b : List (List ℚ)) (j : Nat) : List ℚ :=
  b.map (fun row => row.getD j 0)

/-- Semantics of `tf.matmul` on rational matrices stored as lists of rows. -/
def matMul (a b : List (List ℚ)) : List (List ℚ) :=
  let p := (b.headD []).length
  a.map (fun row => (List.range p).map (fun j => dotProd row (matCol b j)))

/-- TensorFlow broadcasting `M + b`: the bias vector is added to every row. -/
def addBias (m : List (List ℚ)) (b : List ℚ) : List (List ℚ) :=
  m.map (fun row => List.zipWith (fun x y => x + y) row b)

/-- Semantics of `tf.zeros([n, k])`. -/
def zerosMat (n k : Nat) : List (List ℚ) :=
  List.replicate n (List.replicate k 0)

/-- The value semantics of network_tf.py line 700, the localisation network of
`_build_spatial_transformer`:
`tf.matmul(tf.zeros([batch, h*w*c]), transformW) + transformb`, evaluated at
current weight values `transformW` / `transformb`. -/
def loc_network_value (batch_dim input_height input_width input_channels : Nat)
    (transformW : List (List ℚ)) (transformb : List ℚ) : List (List ℚ) :=
  addBias
    (matMul (zerosMat batch_dim (input_height * input_width * input_channels)) transformW)
    transformb

/-- Modelled from the spec: "computes affine transform parameters via a dense
layer over the flattened input" — i.e. the flattened input image batch
multiplied by the weight matrix, plus the bias.  This is the comparison point
for the refinement claim C2; the code's definition is `loc_network_value`. -/
def loc_network_spec_model (input_flat : List (List ℚ))
    (transformW : List (List ℚ)) (transformb : List ℚ) : List (List ℚ) :=
  addBias (matMul input_flat transformW) transformb

/-- The normalization state of a `GQCNNTF` instance: the underscore attributes
`_im_mean`, `_im_std`, `_pose_mean`, `_pose_std`, `_gripper_mean`,
`_gripper_std`, `_gripper_depth_mask_mean`, `_gripper_depth_mask_std`.
`none` models an attribute that has never been assigned (accessing it raises
`AttributeError`); `_parse_config` always assigns the image and pose stats,
assigns the gripper stats only when `gripper_dim > 0`, and never assigns the
gripper-depth-mask stats (only their update setters do). -/
structure NormParams where
  imMeanAttr : ℚ
  imStdAttr : ℚ
  poseMeanAttr : List ℚ
  poseStdAttr : List ℚ
  gripperMeanAttr : Option (List ℚ)
  gripperStdAttr : Option (List ℚ)
  gripperDepthMaskMeanAttr : Option (List ℚ)
  gripperDepthMaskStdAttr : Option (List ℚ)
  deriving DecidableEq, Repr

/-- A Python attribute value: scalar or numpy vector. -/
inductive PyVal where
  | num (q : ℚ)
  | vec (v : List ℚ)
  deriving DecidableEq, Repr

/-- Python attribute lookup on a `GQCNNTF` instance, restricted to the names
the normalization getters reference.  The class defines no attribute or
property named `im_mean` or `im_std` — only `_im_mean` / `_im_std` and the
unrelated properties of lines 324-374 — so those lookups raise
`AttributeError`, as do the optional underscore attributes when unassigned. -/
def getAttr (s : NormParams) (name : String) : Except String PyVal :=
  if name == "_im_mean" then Except.ok (PyVal.num s.imMeanAttr)
  else if name == "_im_std" then Except.ok (PyVal.num s.imStdAttr)
  else if name == "_pose_mean" then Except.ok (PyVal.vec s.poseMeanAttr)
  else if name == "_pose_std" then Except.ok (PyVal.vec s.poseStdAttr)
  else if name == "_gripper_mean" then
    match s.gripperMeanAttr with
    | some v => Except.ok (PyVal.vec v)
    | none => Except.error "AttributeError: _gripper_mean"
  else if name == "_gripper_std" then
    match s.gripperStdAttr with
    | some v => Except.ok (PyVal.vec v)
    | none => Except.error "AttributeError: _gripper_std"
  else if name == "_gripper_depth_mask_mean" then
    match s.gripperDepthMaskMeanAttr with
    | some v => Except.ok (PyVal.vec v)
    | none => Except.error "AttributeError: _gripper_depth_mask_mean"
  else if name == "_gripper_depth_mask_std" then
    match s.gripperDepthMaskStdAttr with
    | some v => Except.ok (PyVal.vec v)
    | none => Except.error "AttributeError: _gripper_depth_mask_std"
  else Except.error ("AttributeError: " ++ name)

/-- The normalization defaults assigned by `_parse_config` (lines 243-250). -/
def parseNormDefaults (pose_dim gripper_dim : Nat) : NormParams :=
  ⟨0, 1, List.replicate pose_dim 0, List.replicate pose_dim 1,
    if gripper_dim > 0 then some (List.replicate gripper_dim 0) else none,
    if gripper_dim > 0 then some (List.replicate gripper_dim 1) else none,
    none, none⟩

/-- Embeds `GQCNNTF.update_im_mean` (line 385): `self._im_mean = im_mean`. -/
def update_im_mean (s : NormParams) (v : ℚ) : NormParams :=
  ⟨v, s.imStdAttr, s.poseMeanAttr, s.poseStdAttr, s.gripperMeanAttr, s.gripperStdAttr,
    s.gripperDepthMaskMeanAttr, s.gripperDepthMaskStdAttr⟩

/-- Embeds `GQCNNTF.get_im_mean` (line 395): `return self.im_mean` — note the missing
underscore; the attribute that exists is `_im_mean`. -/
def get_im_mean (s : NormParams) : Except String PyVal := getAttr s "im_mean"

/-- Embeds `GQCNNTF.update_im_std` (line 405): `self._im_std = im_std`. -/
def update_im_std (s : NormParams) (v : ℚ) : NormParams :=
  ⟨s.imMeanAttr, v, s.poseMeanAttr, s.poseStdAttr, s.gripperMeanAttr, s.gripperStdAttr,
    s.gripperDepthMaskMeanAttr, s.gripperDepthMaskStdAttr⟩

/-- Embeds `GQCNNTF.get_im_std` (line 415): `return self.im_std` — same missing
underscore. -/
def get_im_std (s : NormParams) : Except String PyVal := getAttr s "im_std"

/-- Embeds `GQCNNTF.update_pose_mean` (line 425): `self._pose_mean = pose_mean`. -/
def update_pose_mean (s : NormParams) (v : List ℚ) : NormParams :=
  ⟨s.imMeanAttr, s.imStdAttr, v, s.poseStdAttr, s.gripperMeanAttr, s.gripperStdAttr,
    s.gripperDepthMaskMeanAttr, s.gripperDepthMaskStdAttr⟩

/-- Embeds `GQCNNTF.get_pose_mean` (line 435): `return self._pose_mean`. -/
def get_pose_mean (s : NormParams) : Except String PyVal := getAttr s "_pose_mean"

/-- Embeds `GQCNNTF.update_pose_std` (line 445): `self._pose_std = pose_std`. -/
def update_pose_std (s : NormParams) (v : List ℚ) : NormParams :=
  ⟨s.imMeanAttr, s.imStdAttr, s.poseMeanAttr, v, s.gripperMeanAttr, s.gripperStdAttr,
    s.gripperDepthMaskMeanAttr, s.gripperDepthMaskStdAttr⟩

/-- Embeds `GQCNNTF.get_pose_std` (line 455): `return self._pose_std`. -/
def get_pose_std (s : NormParams) : Except String PyVal := getAttr s "_pose_std"

/-- Embeds `GQCNNTF.update_gripper_mean` (line 465): `self._gripper_mean = v`. -/
def update_gripper_mean (s : NormParams) (v : List ℚ) : NormParams :=
  ⟨s.imMeanAttr, s.imStdAttr, s.poseMeanAttr, s.poseStdAttr, some v, s.gripperStdAttr,
    s.gripperDepthMaskMeanAttr, s.gripperDepthMaskStdAttr⟩

/-- Embeds `GQCNNTF.update_gripper_std` (line 485): `self._gripper_std = v`. -/
def update_gripper_std (s : NormParams) (v : List ℚ) : NormParams :=
  ⟨s.imMeanAttr, s.imStdAttr, s.poseMeanAttr, s.poseStdAttr, s.gripperMeanAttr, some v,
    s.gripperDepthMaskMeanAttr, s.gripperDepthMaskStdAttr⟩

/-- Embeds `GQCNNTF.update_gripper_depth_mask_mean` (line 505). -/
def update_gripper_depth_mask_mean (s : NormParams) (v : List ℚ) : NormParams :=
  ⟨s.imMeanAttr, s.imStdAttr, s.poseMeanAttr, s.poseStdAttr, s.gripperMeanAttr,
    s.gripperStdAttr, some v, s.gripperDepthMaskStdAttr⟩

/-- Embeds `GQCNNTF.update_gripper_depth_mask_std` (line 525). -/
def update_gripper_depth_mask_std (s : NormParams) (v : List ℚ) : NormParams :=
  ⟨s.imMeanAttr, s.imStdAttr, s.poseMeanAttr, s.poseStdAttr, s.gripperMeanAttr,
    s.gripperStdAttr, s.gripperDepthMaskMeanAttr, some v⟩

/-- The *effective* `GQCNNTF.get_gripper_mean`: the class body defines
`get_gripper_mean` twice (lines 475 and 515); in Python the later definition
shadows the earlier one, so calling `get_gripper_mean` executes line 523:
`return self._gripper_depth_mask_mean`. -/
def get_gripper_mean (s : NormParams) : Except String PyVal :=
  getAttr s "_gripper_depth_mask_mean"

/-- The *effective* `GQCNNTF.get_gripper_std`: defined twice (lines 495 and
535); the later definition wins and returns
`self._gripper_depth_mask_std`. -/
def get_gripper_std (s : NormParams) : Except String PyVal :=
  getAttr s "_gripper_depth_mask_std"

/-- A simplified Python heap of dictionary objects, addressed by allocation
order.  Only dict objects matter for claim C10. -/
structure PyHeap where
  nextAddr : Nat
  dicts : List (Nat × Store)
  deriving Repr

/-- Allocate a fresh empty dict `{}`. -/
def allocDict (h : PyHeap) : Nat × PyHeap :=
  (h.nextAddr, ⟨h.nextAddr + 1, (h.nextAddr, []) :: h.dicts⟩)

/-- Read `dictobj[k]` through an address. -/
def heapRead (h : PyHeap) (a : Nat) (k : String) : Option TExpr :=
  (h.dicts.find? (fun p => p.1 == a)).bind (fun p => dictGet? p.2 k)

/-- Write `dictobj[k] = v` through an address. -/
def heapWrite (h : PyHeap) (a : Nat) (k : String) (v : TExpr) : PyHeap :=
  ⟨h.nextAddr, h.dicts.map (fun p => if p.1 == a then (a, dictInsert p.2 k v) else p)⟩

/-- Executing the class body of `GQCNNWeights` (lines 25-29): the single
statement `weights = {}` allocates ONE dict and binds it as a *class*
attribute.  This runs once, at class-definition time. -/
def gqcnnWeightsClassBody (h : PyHeap) : Nat × PyHeap := allocDict h

/-- A `GQCNNWeights` instance: its `__init__` body is `pass`, so its instance
`__dict__` never gains a `weights` entry (`none`). -/
structure GQCNNWeightsObj where
  instWeights : Option Nat
  deriving DecidableEq, Repr

/-- Constructor `GQCNNWeights()` — the constructor allocates nothing. -/
def gqcnnWeights_new : GQCNNWeightsObj := ⟨none⟩

/-- Python attribute resolution for `obj.weights`: the instance `__dict__`
first, falling back to the class attribute. -/
def weightsAttrAddr (clsAddr : Nat) (o : GQCNNWeightsObj) : Nat :=
  o.instWeights.getD clsAddr

/-- Helper for `shortName`: scan the characters, restarting the current
component at every `'/'`; the final component is what remains after the last
slash. -/
def shortNameChars : List Char → List Char → List Char
  | [], cur => cur.reverse
  | c :: rest, cur =>
    if c = '/' then shortNameChars rest [] else shortNameChars rest (c :: cur)

/-- The short name `variable.split('/')[-1]` of line 150: the component after
the last slash (the whole name when there is no slash). -/
def shortName (fullVarName : String) : String :=
  ⟨shortNameChars fullVarName.data []⟩

/-- Embeds `GQCNNTF.init_weights_file` (lines 131-153): builds `self._weights =
GQCNNWeights()` (whose `weights` attribute still resolves to the one
class-level dict) and then writes
`weights[short_name] = tf.Variable(reader.get_tensor(full_name))` for every
checkpoint variable, into that shared dict. -/
def init_weights_file (clsAddr : Nat) (h : PyHeap) (ckpt_vars : List String) :
    GQCNNWeightsObj × PyHeap :=
  let o := gqcnnWeights_new
  let a := weightsAttrAddr clsAddr o
  (o, ckpt_vars.foldl
    (fun hh full =>
      heapWrite hh a (shortName full) (TExpr.tfVar "" (TExpr.ckptTensor full)))
    h)

theorem writeSlice_length (arr : List ℚ) (i : Nat) (vals : List ℚ)
    (h : i + vals.length ≤ arr.length) : (writeSlice arr i vals).length = arr.length := by
  simp only [writeSlice, List.length_append, List.length_take, List.length_drop]
  omega

theorem predictLoop_out_length (env : PredictEnv) (images : List ℚ) (n : Nat) :
    ∀ fuel i buf a, a.length = n →
      ∃ b, (predictLoop env images n fuel i buf (some a)).1 = some b ∧ b.length = n := by
  intro fuel
  induction fuel with
  | zero => intro i buf a ha; exact ⟨a, rfl, ha⟩
  | succ f ih =>
    intro i buf a ha
    by_cases hi : i < n
    · simp only [predictLoop, if_pos hi]
      apply ih
      rw [writeSlice_length]
      · exact ha
      · rw [ha, List.length_take]
        omega
    · simp only [predictLoop, if_neg hi]
      exact ⟨a, rfl, ha⟩

theorem predictLoop_none_length (env : PredictEnv) (images : List ℚ) (n : Nat)
    (hn : 0 < n) (f : Nat) (buf : List ℚ) :
    ∃ b, (predictLoop env images n (f + 1) 0 buf none).1 = some b ∧ b.length = n := by
  simp only [predictLoop, if_pos hn]
  apply predictLoop_out_length
  rw [writeSlice_length]
  · exact List.length_replicate n 0
  · rw [List.length_replicate, List.length_take]
    omega

theorem predictLoop_done (env : PredictEnv) (images : List ℚ) (n fuel : Nat)
    (buf : List ℚ) (out : Option (List ℚ)) :
    predictLoop env images n fuel n buf out = (out, buf) := by
  cases fuel with
  | zero => rfl
  | succ f => simp [predictLoop]

/-- Claim C1, counterexample.  The claim asserts that for *every* `N`,
including `N = 0`, `predict` returns an output array with exactly `N` rows.
With `N = 0` the chunked loop never executes, `output_arr` is never allocated,
and `predict` returns Python `None` — not an array with 0 rows. -/
theorem C1_counterexample :
    predict ⟨2, 0, 1, fun b => b⟩ true [] [] none = Except.ok none := by
  rfl

/-- Claim C1, amended.  For every call `predict(images, poses[, grippers])`
with matching input counts, an open session, `batch_size ≥ 1` and `N ≥ 1`, the
returned output array has exactly `N` rows, for every relationship between `N`
and the batch size (`N < B`, `N` a multiple of `B`, or otherwise); when
`N = 0` the function instead returns `None` (see the counterexample). -/
theorem C1_predict_row_count (env : PredictEnv) (images poses : List ℚ)
    (grippers : Option (List ℚ))
    (hB : 0 < env.batchSize)
    (hlen : images.length = poses.length)
    (hg : ∀ g, grippers = some g → images.length = g.length)
    (hn : 0 < images.length) :
    ∃ arr, predict env true images poses grippers = Except.ok (some arr) ∧
      arr.length = images.length := by
  obtain ⟨b, hb, hbl⟩ := predictLoop_none_length env images images.length hn
    (images.length - 1) (List.replicate env.batchSize 0)
  rw [Nat.sub_add_cancel hn] at hb
  refine ⟨b, ?_, hbl⟩
  have hgr : grippers.any (fun g => images.length != g.length) = false := by
    cases grippers with
    | none => rfl
    | some g => simp [hg g rfl]
  have hco : ¬images.length ≠ poses.length := by simp [hlen]
  simp only [predict, predictRun, Except.map]
  rw [if_neg hco, if_neg (by simp [hgr])]
  simp [hb]

/-- Witness for C1: `batch_size = 2`, three images — the 2,1 chunking returns
a 3-row array. -/
theorem C1_predict_row_count_witness :
    ∃ arr, predict ⟨2, 0, 1, fun b => b⟩ true [1, 2, 3] [4, 5, 6] none =
      Except.ok (some arr) ∧ arr.length = 3 :=
  C1_predict_row_count ⟨2, 0, 1, fun b => b⟩ [1, 2, 3] [4, 5, 6] none
    (by decide) rfl (fun g h => nomatch h) (by decide)

/-- Claim C3, counterexample.  `batch_size = 2`, three images of value 1
(mean 0, std 1): the final chunk has `dim = 1`, but when the graph is executed
the scratch buffer is `[1, 1]` — its row 1, beyond the valid `dim` rows,
holds the stale value written by the previous full chunk, not zero.  The code
never re-zeroes the reused buffer, so "zero-pads the final partial chunk" fails
as soon as an earlier chunk has been processed. -/
theorem C3_counterexample :
    predictRun ⟨2, 0, 1, fun b => b⟩ true [1, 1, 1] [1, 1, 1] none =
      Except.ok (some [1, 1, 1], [1, 1]) ∧ (1 : ℚ) ≠ 0 := by
  constructor
  · simp [predictRun, predictLoop, overwriteFront, writeSlice]
  · exact one_ne_zero

/-- Claim C3, amended.  The rows of the scratch image buffer beyond the valid
`dim` rows of the final partial chunk contain zeros at graph execution *only
when that partial chunk is the first chunk* (`N ≤ B`, so no earlier chunk has
overwritten the buffer): in that case the buffer is the normalized input
followed by `B - N` zero rows.  When earlier full chunks have been processed
those rows instead retain the previous chunk's values (see the
counterexample). -/
theorem C3_zero_padding_single_chunk (env : PredictEnv) (images poses : List ℚ)
    (hlen : images.length = poses.length) (hn : 0 < images.length)
    (hB : images.length ≤ env.batchSize) :
    ∃ o, predictRun env true images poses none = Except.ok (o,
      (images.map fun x => (x - env.imMean) / env.imStd) ++
        List.replicate (env.batchSize - images.length) 0) := by
  obtain ⟨m, hm⟩ : ∃ m, images.length = m + 1 := ⟨images.length - 1, by omega⟩
  have hco : ¬images.length ≠ poses.length := by simp [hlen]
  have hstep : predictLoop env images images.length images.length 0
      (List.replicate env.batchSize 0) none =
      (some (writeSlice (List.replicate images.length 0) 0
        ((env.run ((images.map fun x => (x - env.imMean) / env.imStd) ++
          List.replicate (env.batchSize - images.length) 0)).take images.length)),
       (images.map fun x => (x - env.imMean) / env.imStd) ++
         List.replicate (env.batchSize - images.length) 0) := by
    have hmin : min env.batchSize (images.length - 0) = images.length := by omega
    have htake : List.take images.length (List.drop 0 images) = images := by
      rw [List.drop_zero, List.take_length]
    conv_lhs => rw [hm]
    simp only [predictLoop, if_pos (Nat.succ_pos m)]
    rw [← hm]
    simp only [overwriteFront, hmin, htake, List.length_map, Nat.zero_add,
      List.drop_replicate, predictLoop_done]
  simp only [predictRun]
  rw [if_neg hco, if_neg (by simp), if_neg (by simp)]
  rw [hstep]
  exact ⟨_, rfl⟩

/-- Witness for C3: `batch_size = 3`, one image of value 5 — the single
(first and final) partial chunk really is zero-padded: the buffer at execution
is `[5, 0, 0]`. -/
theorem C3_zero_padding_single_chunk_witness :
    ∃ o, predictRun ⟨3, 0, 1, fun b => b⟩ true [5] [6] none =
      Except.ok (o, [5, 0, 0]) := by
  obtain ⟨o, h⟩ := C3_zero_padding_single_chunk ⟨3, 0, 1, fun b => b⟩ [5] [6] rfl
    (by decide) (by decide)
  exact ⟨o, by simpa using h⟩

/-- Claim C4, counterexample.  `featurize` with no open session opens a
transient one, but the loop body has no try/finally: when graph execution
raises (here an internal error on the single chunk), the error propagates with
the transient session still open — one open execution context remains, not
zero. -/
theorem C4_counterexample :
    featurize ⟨1, 0, 1, fun _ => Except.error "InternalError"⟩ false
      ["conv2_2"] "conv2_2" [1] [1] = (Except.error "InternalError", true) := by
  simp [featurize, featurizeLoop, overwriteFront]

/-- Claim C4, amended.  When `featurize` is called with no open execution
context, a registered feature layer and matching input counts: if the chunked
loop completes without raising, zero open contexts remain afterwards; but if
the loop raises, the error propagates with the transient context left *open*
(the context leaks; see the counterexample). -/
theorem C4_featurize_session (env : FeaturizeEnv) (feats : List String)
    (layer : String) (images poses : List ℚ)
    (hreg : feats.contains layer = true)
    (hlen : images.length = poses.length) :
    (∀ out, featurizeLoop env images images.length images.length 0
        (List.replicate env.batchSize 0) none = Except.ok out →
      (featurize env false feats layer images poses).2 = false) ∧
    (∀ e, featurizeLoop env images images.length images.length 0
        (List.replicate env.batchSize 0) none = Except.error e →
      featurize env false feats layer images poses = (Except.error e, true)) := by
  have hco : ¬images.length ≠ poses.length := by simp [hlen]
  constructor
  · intro out hout
    simp only [featurize, hreg, Bool.not_true, Bool.false_eq_true, if_false]
    rw [if_neg hco, hout]
    cases out with
    | none => rfl
    | some arr => rfl
  · intro e he
    simp only [featurize, hreg, Bool.not_true, Bool.false_eq_true, if_false]
    rw [if_neg hco, he]

/-- Witness for C4: a successful single-chunk featurize leaves the transient
session closed. -/
theorem C4_featurize_session_witness :
    (featurize ⟨1, 0, 1, fun b => Except.ok b⟩ false ["a"] "a" [1] [2]).2 = false := by
  refine (C4_featurize_session ⟨1, 0, 1, fun b => Except.ok b⟩ ["a"] "a" [1] [2]
    rfl rfl).1 (some [1]) ?_
  simp [featurizeLoop, overwriteFront]

/-- Claim C5, counterexample.  Placing a `pc` layer in the image stream after
a conv layer raises `ValueError('Cannot have pose-connected layer in image
stream')`: the message is the same fixed string for two differently named
offending layers — so it cannot identify the layer's *name* (only the stream
and the layer type) — and the Weight Store is *not* left unchanged: the
preceding conv layer's weights and bias have already been created. -/
theorem C5_counterexample :
    (build_im_stream false 16 32 (TExpr.placeholder "x") 32 32 1
      [("conv1", convSpec 3 8 2 2 false), ("pc_bad", pcSpec 16)] emptyNetState).1 =
    (build_im_stream false 16 32 (TExpr.placeholder "x") 32 32 1
      [("conv1", convSpec 3 8 2 2 false), ("other_name", pcSpec 16)] emptyNetState).1 ∧
    (build_im_stream false 16 32 (TExpr.placeholder "x") 32 32 1
      [("conv1", convSpec 3 8 2 2 false), ("pc_bad", pcSpec 16)] emptyNetState).1 =
      Except.error "Cannot have pose-connected layer in image stream" ∧
    (build_im_stream false 16 32 (TExpr.placeholder "x") 32 32 1
      [("conv1", convSpec 3 8 2 2 false), ("pc_bad", pcSpec 16)]
      emptyNetState).2.1.weights ≠ [] := by
  refine ⟨?_, ?_, ?_⟩ <;> decide

/-- Claim C5, amended.  For every architecture placing a `pc` layer (of any
name) after a conv layer in the image stream, building raises a configuration
error whose message identifies the stream and the offending layer's *type*
(it is a fixed string, independent of the layer's name), and the Weight Store
retains exactly the entries created for the layers preceding the offending one
(here the conv layer's weights and bias) — it is *not* rolled back. -/
theorem C5_error_identifies_type_not_name (pcName : String) (cfgp : LayerConfig)
    (hpc : cfgp.type_ = LayerType.pcType)
    (input : TExpr) (bd tw h w c fd nf ps psz : Nat) :
    (build_im_stream false bd tw input h w c
      [("conv1", convSpec fd nf ps psz false), (pcName, cfgp)] emptyNetState).1 =
      Except.error "Cannot have pose-connected layer in image stream" ∧
    (build_im_stream false bd tw input h w c
      [("conv1", convSpec fd nf ps psz false), (pcName, cfgp)] emptyNetState).2.1.weights =
      [("conv1_weights", TExpr.tfVar "conv1_weights"
          (TExpr.truncatedNormal [fd, fd, c, nf] (fd * fd * c))),
       ("conv1_bias", TExpr.tfVar "conv1_bias" (TExpr.truncatedNormal [nf] (fd * fd * c)))] := by
  simp [build_im_stream, im_stream_loop, im_stream_step, build_conv_layer, convSpec,
    hpc, dictGet?, dictInsert, setWeights, setFeature, emptyNetState]

/-- Witness for C5 at a concrete architecture. -/
theorem C5_error_identifies_type_not_name_witness :
    (build_im_stream false 16 32 (TExpr.placeholder "x") 32 32 1
      [("conv1", convSpec 3 8 2 2 false), ("pcW", pcSpec 16)] emptyNetState).1 =
      Except.error "Cannot have pose-connected layer in image stream" ∧
    (build_im_stream false 16 32 (TExpr.placeholder "x") 32 32 1
      [("conv1", convSpec 3 8 2 2 false), ("pcW", pcSpec 16)] emptyNetState).2.1.weights =
      [("conv1_weights", TExpr.tfVar "conv1_weights"
          (TExpr.truncatedNormal [3, 3, 1, 8] (3 * 3 * 1))),
       ("conv1_bias", TExpr.tfVar "conv1_bias" (TExpr.truncatedNormal [8] (3 * 3 * 1)))] :=
  C5_error_identifies_type_not_name "pcW" (pcSpec 16) rfl (TExpr.placeholder "x")
    16 32 32 32 1 3 8 2 2

/-- Claim C6, counterexample.  Rebuilding through the fully-convolutional
conversion path (`_build_fully_conv_layer`) when `fc1_fully_conv_weights`
already exists in the Weight Store does *not* leave the Store unchanged: the
entry is unconditionally replaced by a freshly created reshaped variable. -/
theorem C6_fully_conv_counterexample :
    (build_fully_conv_layer (TExpr.placeholder "x") 7 "fc1"
      ⟨[("fc1_weights", TExpr.placeholder "w"), ("fc1_bias", TExpr.placeholder "b"),
        ("fc1_fully_conv_weights", TExpr.placeholder "old")], []⟩).2.weights ≠
    [("fc1_weights", TExpr.placeholder "w"), ("fc1_bias", TExpr.placeholder "b"),
     ("fc1_fully_conv_weights", TExpr.placeholder "old")] := by
  decide

/-- Claim C6, amended.  Rebuilding a layer whose weight keys already exist in
the Weight Store leaves the Store unchanged (the existing tensors are reused,
nothing added, replaced, or removed) for the conv, fc, pc, gc, fc_merge
(both 2- and 3-input), residual, and spatial-transformer builders — but *not*
for the fully-convolutional conversion path, which always stores a freshly
reshaped variable under `{name}_fully_conv_weights`, replacing any existing
entry (see the counterexample). -/
theorem C6_reuse_is_idempotent
    (st : NetState) (input input2 input3 : TExpr)
    (nameC nameF nameP nameG nameM nameR nameS : String)
    (h w c fh fw nf psh psw psz fi os f1 f2 f3 bd ntp ow oh : Nat)
    (normFlag multi finalLayer first : Bool)
    (wc bc wf bf wp bp wg bg m1 m2 m3 mb r1w r1b r2w r2b ws bs : TExpr)
    (hc1 : dictGet? st.weights (nameC ++ "_weights") = some wc)
    (hc2 : dictGet? st.weights (nameC ++ "_bias") = some bc)
    (hf1 : dictGet? st.weights (nameF ++ "_weights") = some wf)
    (hf2 : dictGet? st.weights (nameF ++ "_bias") = some bf)
    (hp1 : dictGet? st.weights (nameP ++ "_weights") = some wp)
    (hp2 : dictGet? st.weights (nameP ++ "_bias") = some bp)
    (hg1 : dictGet? st.weights (nameG ++ "_weights") = some wg)
    (hg2 : dictGet? st.weights (nameG ++ "_bias") = some bg)
    (hm1 : dictGet? st.weights (nameM ++ "_input_1_weights") = some m1)
    (hm2 : dictGet? st.weights (nameM ++ "_input_2_weights") = some m2)
    (hm3 : dictGet? st.weights (nameM ++ "_input_3_weights") = some m3)
    (hm4 : dictGet? st.weights (nameM ++ "_bias") = some mb)
    (hr1 : dictGet? st.weights (nameR ++ "_conv1_weights") = some r1w)
    (hr2 : dictGet? st.weights (nameR ++ "_conv1_bias") = some r1b)
    (hr3 : dictGet? st.weights (nameR ++ "_conv2_weights") = some r2w)
    (hr4 : dictGet? st.weights (nameR ++ "_conv2_bias") = some r2b)
    (hs1 : dictGet? st.weights (nameS ++ "_weights") = some ws)
    (hs2 : dictGet? st.weights (nameS ++ "_bias") = some bs) :
    (build_conv_layer input h w c fh fw nf psh psw psz nameC normFlag st).2.weights
      = st.weights ∧
    (build_fc_layer input fi os nameF multi finalLayer st).2.weights = st.weights ∧
    (build_pc_layer input fi os nameP st).2.weights = st.weights ∧
    (build_gc_layer input fi os nameG st).2.weights = st.weights ∧
    (build_fc_merge input input2 f1 f2 os nameM none none st).2.weights = st.weights ∧
    (build_fc_merge input input2 f1 f2 os nameM (some input3) (some f3) st).2.weights
      = st.weights ∧
    (build_residual_layer input c fi nf fh fw nameR first st).2.weights = st.weights ∧
    (build_spatial_transformer input bd h w c ntp ow oh nameS st).2.weights = st.weights := by
  refine ⟨?_, ?_, ?_, ?_, ?_, ?_, ?_, ?_⟩
  · simp [build_conv_layer, hc1, hc2, setFeature]
  · simp [build_fc_layer, hf1, hf2, setFeature]
  · simp [build_pc_layer, hp1, hp2, setFeature]
  · simp [build_gc_layer, hg1, hg2, setFeature]
  · simp [build_fc_merge, hm1, hm2, hm4, setFeature]
  · simp [build_fc_merge, hm1, hm2, hm3, hm4, setFeature]
  · simp [build_residual_layer, hr1, hr2, hr3, hr4, setFeature]
  · simp [build_spatial_transformer, hs1, hs2, setFeature]

/-- Witness for C6: a concrete store holding every key reused by the eight
builder calls is left unchanged by each of them. -/
theorem C6_reuse_is_idempotent_witness :
    let v := TExpr.placeholder "v"
    let stw : Store := [("c_weights", v), ("c_bias", v), ("f_weights", v), ("f_bias", v),
      ("p_weights", v), ("p_bias", v), ("g_weights", v), ("g_bias", v),
      ("m_input_1_weights", v), ("m_input_2_weights", v), ("m_input_3_weights", v),
      ("m_bias", v), ("r_conv1_weights", v), ("r_conv1_bias", v), ("r_conv2_weights", v),
      ("r_conv2_bias", v), ("s_weights", v), ("s_bias", v)]
    let st : NetState := ⟨stw, []⟩
    (build_conv_layer (TExpr.placeholder "x") 5 5 1 2 2 4 2 2 1 "c" false st).2.weights
      = stw ∧
    (build_fc_layer (TExpr.placeholder "x") 10 5 "f" false false st).2.weights = stw ∧
    (build_pc_layer (TExpr.placeholder "x") 10 5 "p" st).2.weights = stw ∧
    (build_gc_layer (TExpr.placeholder "x") 10 5 "g" st).2.weights = stw ∧
    (build_fc_merge (TExpr.placeholder "x") (TExpr.placeholder "y") 3 4 5 "m"
      none none st).2.weights = stw ∧
    (build_fc_merge (TExpr.placeholder "x") (TExpr.placeholder "y") 3 4 5 "m"
      (some (TExpr.placeholder "z")) (some 6) st).2.weights = stw ∧
    (build_residual_layer (TExpr.placeholder "x") 1 10 4 2 2 "r" true st).2.weights = stw ∧
    (build_spatial_transformer (TExpr.placeholder "x") 16 5 5 1 6 24 24 "s"
      st).2.weights = stw := by
  intro v stw st
  refine C6_reuse_is_idempotent st _ _ _ _ _ _ _ _ _ _ _ _ _ _ _ _ _ _ _ _ _ _ _ _ _ _ _ _ _ _ _ _ v v v v v v v v v v v v v v v v v v
    ?_ ?_ ?_ ?_ ?_ ?_ ?_ ?_ ?_ ?_ ?_ ?_ ?_ ?_ ?_ ?_ ?_ ?_
  all_goals rfl

/-- Claim C7 (code bug).  For input spatial size 5 and pool stride 2 the
metadata recorded by `_build_conv_layer` is `5 / 2 = 2` (Python 2 floor
division, line 733), while `ceil(5/2) = 3` — which is also the actual spatial
size `tf.nn.max_pool` produces with `padding='SAME'`, so the recorded fan-in
disagrees with the real tensor whenever the stride does not divide the size. -/
theorem C7_conv_metadata_floor_div :
    ((build_conv_layer (TExpr.placeholder "input_im") 5 5 1 2 2 4 2 2 1 "conv1" false
      emptyNetState).1.map (fun r => (r.2.1, r.2.2.1)) = Except.ok (2, 2)) ∧
    (5 + 2 - 1) / 2 = 3 := by
  refine ⟨?_, rfl⟩
  decide

/-- Claim C8, counterexample.  In the image stream
`conv1, res1, conv2, res2` the `first_residual` flag is reset to true by the
intermediate conv layer, so `res2` — a *later* residual block of the stream —
is also built with `first=true` and thus *skips* the leading
normalization+activation, contradicting "every later residual block in the
same stream applies it".  The second conjunct confirms the flag matters: the
built expressions for `first=true` and `first=false` differ. -/
theorem C8_counterexample :
    ((build_im_stream false 16 32 (TExpr.placeholder "x") 32 32 1
      [("conv1", convSpec 3 8 2 2 false), ("res1", residualSpec 3 8),
       ("conv2", convSpec 3 8 2 2 false), ("res2", residualSpec 3 8)]
      emptyNetState).2.2 = [("res1", true), ("res2", true)]) ∧
    (build_residual_layer (TExpr.placeholder "y") 8 128 8 3 3 "r" true emptyNetState).1 ≠
    (build_residual_layer (TExpr.placeholder "y") 8 128 8 3 3 "r" false emptyNetState).1 := by
  refine ⟨?_, ?_⟩ <;> decide

/-- Claim C8, amended.  The structural formulas hold exactly as claimed:
`first=true` gives `input + conv2(act(bn(conv1(input))))` and `first=false`
gives `input + conv2(act(bn(conv1(act(bn(input))))))`.  But within an image
stream it is the first residual block of each *consecutive run* of residual
blocks that is built with `first=true` — the flag is reset by
spatial-transformer, conv, and fc layers — not only the very first residual
block of the stream: in `conv, res1, res2` the trace is
`[true, false]`, while in `conv, res1, conv, res2` both residual blocks get
`first=true`. -/
theorem C8_residual_structure_and_first_flag (input : TExpr)
    (c fi nf fh fw : Nat) (name : String) (first : Bool) (st : NetState)
    (w1 b1 w2 b2 : TExpr)
    (h1 : dictGet? st.weights (name ++ "_conv1_weights") = some w1)
    (h2 : dictGet? st.weights (name ++ "_conv1_bias") = some b1)
    (h3 : dictGet? st.weights (name ++ "_conv2_weights") = some w2)
    (h4 : dictGet? st.weights (name ++ "_conv2_bias") = some b2) :
    ((build_residual_layer input c fi nf fh fw name first st).1 =
      Except.ok (TExpr.add input
        (TExpr.add (TExpr.conv2d (TExpr.leakyRelu (TExpr.batchNorm
          (TExpr.add (TExpr.conv2d
            (if first then input else TExpr.leakyRelu (TExpr.batchNorm input))
            w1 "SAME") b1))) w2 "SAME") b2), nf)) ∧
    ((build_im_stream false 16 32 (TExpr.placeholder "x") 32 32 1
      [("conv1", convSpec 3 8 2 2 false), ("res1", residualSpec 3 8),
       ("res2", residualSpec 3 8)] emptyNetState).2.2 =
      [("res1", true), ("res2", false)]) ∧
    ((build_im_stream false 16 32 (TExpr.placeholder "x") 32 32 1
      [("conv1", convSpec 3 8 2 2 false), ("res1", residualSpec 3 8),
       ("conv2", convSpec 3 8 2 2 false), ("res2", residualSpec 3 8)]
      emptyNetState).2.2 = [("res1", true), ("res2", true)]) := by
  refine ⟨?_, by decide, by decide⟩
  cases first <;>
    simp [build_residual_layer, h1, h2, h3, h4, build_batch_norm, leaky_relu]

/-- Witness for C8 at a concrete store and `first=true` (the leading
normalization+activation is skipped). -/
theorem C8_residual_structure_and_first_flag_witness :
    (build_residual_layer (TExpr.placeholder "x") 1 9 4 3 3 "rb" true
      ⟨[("rb_conv1_weights", TExpr.placeholder "w1"),
        ("rb_conv1_bias", TExpr.placeholder "b1"),
        ("rb_conv2_weights", TExpr.placeholder "w2"),
        ("rb_conv2_bias", TExpr.placeholder "b2")], []⟩).1 =
      Except.ok (TExpr.add (TExpr.placeholder "x")
        (TExpr.add (TExpr.conv2d (TExpr.leakyRelu (TExpr.batchNorm
          (TExpr.add (TExpr.conv2d (TExpr.placeholder "x")
            (TExpr.placeholder "w1") "SAME") (TExpr.placeholder "b1"))))
          (TExpr.placeholder "w2") "SAME") (TExpr.placeholder "b2")), 4) :=
  (C8_residual_structure_and_first_flag (TExpr.placeholder "x") 1 9 4 3 3 "rb" true
    ⟨[("rb_conv1_weights", TExpr.placeholder "w1"),
      ("rb_conv1_bias", TExpr.placeholder "b1"),
      ("rb_conv2_weights", TExpr.placeholder "w2"),
      ("rb_conv2_bias", TExpr.placeholder "b2")], []⟩
    (TExpr.placeholder "w1") (TExpr.placeholder "b1") (TExpr.placeholder "w2")
    (TExpr.placeholder "b2") rfl rfl rfl rfl).1

theorem dotProd_replicate_zero (v : List ℚ) : ∀ k, dotProd (List.replicate k 0) v = 0 := by
  induction v with
  | nil => intro k; simp [dotProd]
  | cons x xs ih =>
    intro k
    cases k with
    | zero => simp [dotProd]
    | succ m =>
      simp only [List.replicate_succ, dotProd, List.zipWith_cons_cons, List.sum_cons,
        zero_mul, zero_add]
      exact ih m

theorem zipWith_add_replicate_zero (b : List ℚ) :
    List.zipWith (fun x y => x + y) (List.replicate b.length 0) b = b := by
  induction b with
  | nil => rfl
  | cons x xs ih => simp only [List.length_cons, List.replicate_succ,
      List.zipWith_cons_cons, zero_add, ih]

/-- Claim C2, counterexample.  The localisation network of
`_build_spatial_transformer` multiplies a *zeros* tensor — not the flattened
input image — by the weight matrix (line 700).  With reused (e.g. loaded)
weights `W = [[2]]`, bias `b = [3]` and flattened input `[[1]]`, the code
produces `[[3]]` while the claimed dense layer over the flattened input
produces `[[5]]`. -/
theorem C2_counterexample :
    loc_network_value 1 1 1 1 [[2]] [3] = [[3]] ∧
    loc_network_spec_model [[1]] [[2]] [3] = [[5]] ∧
    loc_network_value 1 1 1 1 [[2]] [3] ≠ loc_network_spec_model [[1]] [[2]] [3] := by
  refine ⟨?_, ?_, ?_⟩ <;>
    norm_num [loc_network_value, loc_network_spec_model, matMul, matCol, zerosMat,
      addBias, dotProd, List.range_succ, List.range_zero]

/-- Claim C2, amended.  The fresh weights are indeed initialized to zeros and
the bias to the flattened identity transform `[[0.5,0,0],[0,0.5,0]]`, and the
affine parameters fed to the sampling primitive are
`matmul(zeros([batch, h*w*c]), W) + b` — a dense layer applied to a *zeros*
tensor of the input's shape, not to the flattened input itself.  Consequently
the parameters always equal the bias, independent of both the input image and
the current weight values. -/
theorem C2_loc_params_equal_bias (batch_dim input_height input_width input_channels
    num_transform_params output_width output_height : Nat) (name : String)
    (st : NetState) (input : TExpr) (W : List (List ℚ)) (b : List ℚ)
    (hfresh : dictGet? st.weights (name ++ "_weights") = none)
    (hwidth : (W.headD []).length = b.length) :
    ((build_spatial_transformer input batch_dim input_height input_width input_channels
        num_transform_params output_width output_height name st).1 =
      Except.ok (TExpr.transformerT input
        (TExpr.add (TExpr.matmul
          (TExpr.zeros [batch_dim, input_height * input_width * input_channels])
          (TExpr.tfVar (name ++ "_weights")
            (TExpr.zeros [input_height * input_width * input_channels,
              num_transform_params])))
          (TExpr.tfVar (name ++ "_bias") (TExpr.constVec [1/2, 0, 0, 0, 1/2, 0])))
        output_width output_height, output_height, output_width, input_channels)) ∧
    loc_network_value batch_dim input_height input_width input_channels W b =
      List.replicate batch_dim b := by
  constructor
  · simp [build_spatial_transformer, hfresh, setWeights, setFeature]
  · have hz : ∀ j, dotProd (List.replicate
        (input_height * input_width * input_channels) (0 : ℚ)) (matCol W j) = 0 :=
      fun j => dotProd_replicate_zero (matCol W j) _
    have hwidth2 : (W.head?.getD []).length = b.length := by simpa using hwidth
    simp [loc_network_value, matMul, zerosMat, addBias, List.map_replicate, hz,
      List.map_const', hwidth2, zipWith_add_replicate_zero]

/-- Witness for C2: fresh store, two-image batch, reused-value semantics with
`W = [[2]]`, `b = [3]` — the parameters equal the bias for every row. -/
theorem C2_loc_params_equal_bias_witness :
    ((build_spatial_transformer (TExpr.placeholder "x") 2 1 1 1 6 24 24 "st1"
        emptyNetState).1 =
      Except.ok (TExpr.transformerT (TExpr.placeholder "x")
        (TExpr.add (TExpr.matmul (TExpr.zeros [2, 1])
          (TExpr.tfVar "st1_weights" (TExpr.zeros [1, 6])))
          (TExpr.tfVar "st1_bias" (TExpr.constVec [1/2, 0, 0, 0, 1/2, 0])))
        24 24, 24, 24, 1)) ∧
    loc_network_value 2 1 1 1 [[2]] [3] = [[3], [3]] := by
  have h := C2_loc_params_equal_bias 2 1 1 1 6 24 24 "st1" emptyNetState
    (TExpr.placeholder "x") [[2]] [3] rfl rfl
  exact ⟨h.1, h.2⟩

/-- Claim C9 (code bug).  The setter/getter round-trip fails and getters do
raise: `get_im_mean` returns `self.im_mean` and `get_im_std` returns
`self.im_std`, attributes that do not exist (the stored ones are `_im_mean` /
`_im_std`), so both raise `AttributeError` after any update; and
`get_gripper_mean` / `get_gripper_std` are each *defined twice* in the class
body, so the surviving definitions return the gripper-depth-mask statistics —
which `_parse_config` never initializes — and raise `AttributeError` instead
of returning the value just set by `update_gripper_mean` /
`update_gripper_std`.  Only the pose (and the non-shadowed underscore-reading)
round-trips behave as claimed. -/
theorem C9_normalization_getters_broken :
    get_im_mean (update_im_mean (parseNormDefaults 1 1) 3) =
      Except.error "AttributeError: im_mean" ∧
    get_im_std (update_im_std (parseNormDefaults 1 1) 5) =
      Except.error "AttributeError: im_std" ∧
    get_gripper_mean (update_gripper_mean (parseNormDefaults 1 1) [7]) =
      Except.error "AttributeError: _gripper_depth_mask_mean" ∧
    get_gripper_std (update_gripper_std (parseNormDefaults 1 1) [7]) =
      Except.error "AttributeError: _gripper_depth_mask_std" ∧
    get_pose_mean (update_pose_mean (parseNormDefaults 1 1) [9]) =
      Except.ok (PyVal.vec [9]) ∧
    get_pose_std (update_pose_std (parseNormDefaults 1 1) [9]) =
      Except.ok (PyVal.vec [9]) := by
  refine ⟨rfl, rfl, rfl, rfl, rfl, rfl⟩

/-- Claim C10 (confirmed).  `GQCNNWeights.weights = {}` executes once at class
definition time and `__init__` is `pass`, so every instance resolves
`.weights` to the single class-level dict: (a) a fresh instance's attribute
resolution yields the class address; (b) an entry written while building one
network is read back through any other instance; (c) `init_weights_file`
builds a new `GQCNNWeights()` but still writes the checkpoint entries into the
same shared mapping — afterwards the other instance sees the loaded entry, and
a previously created entry under a different key is still visible. -/
theorem C10_weights_shared_across_instances (h0 : PyHeap) (k : String) (v : TExpr)
    (full : String) (hk : k ≠ shortName full) :
    (weightsAttrAddr (gqcnnWeightsClassBody h0).1 gqcnnWeights_new =
      (gqcnnWeightsClassBody h0).1) ∧
    (heapRead (heapWrite (gqcnnWeightsClassBody h0).2
        (weightsAttrAddr (gqcnnWeightsClassBody h0).1 gqcnnWeights_new) k v)
      (weightsAttrAddr (gqcnnWeightsClassBody h0).1 gqcnnWeights_new) k = some v) ∧
    (heapRead (init_weights_file (gqcnnWeightsClassBody h0).1
        (heapWrite (gqcnnWeightsClassBody h0).2
          (weightsAttrAddr (gqcnnWeightsClassBody h0).1 gqcnnWeights_new) k v)
        [full]).2
      (weightsAttrAddr (gqcnnWeightsClassBody h0).1 gqcnnWeights_new)
      (shortName full) = some (TExpr.tfVar "" (TExpr.ckptTensor full))) ∧
    (heapRead (init_weights_file (gqcnnWeightsClassBody h0).1
        (heapWrite (gqcnnWeightsClassBody h0).2
          (weightsAttrAddr (gqcnnWeightsClassBody h0).1 gqcnnWeights_new) k v)
        [full]).2
      (weightsAttrAddr (gqcnnWeightsClassBody h0).1 gqcnnWeights_new) k = some v) := by
  have hbeq : (k == shortName full) = false := by
    simp [hk]
  refine ⟨rfl, ?_, ?_, ?_⟩
  · simp [heapRead, heapWrite, gqcnnWeightsClassBody, allocDict, weightsAttrAddr,
      gqcnnWeights_new, dictGet?, dictInsert]
  · simp [init_weights_file, heapRead, heapWrite, gqcnnWeightsClassBody, allocDict,
      weightsAttrAddr, gqcnnWeights_new, dictGet?, dictInsert, hbeq]
  · simp [init_weights_file, heapRead, heapWrite, gqcnnWeightsClassBody, allocDict,
      weightsAttrAddr, gqcnnWeights_new, dictGet?, dictInsert, hbeq]

/-- Witness for C10: empty heap, entry `"a"`, checkpoint variable `"ns/w"`
(short name `"w"`). -/
theorem C10_weights_shared_across_instances_witness :
    (weightsAttrAddr 0 gqcnnWeights_new = 0) ∧
    (heapRead (heapWrite (gqcnnWeightsClassBody ⟨0, []⟩).2 0 "a"
      (TExpr.placeholder "v")) 0 "a" = some (TExpr.placeholder "v")) ∧
    (heapRead (init_weights_file 0 (heapWrite (gqcnnWeightsClassBody ⟨0, []⟩).2 0 "a"
        (TExpr.placeholder "v")) ["ns/w"]).2 0 "w" =
      some (TExpr.tfVar "" (TExpr.ckptTensor "ns/w"))) ∧
    (heapRead (init_weights_file 0 (heapWrite (gqcnnWeightsClassBody ⟨0, []⟩).2 0 "a"
        (TExpr.placeholder "v")) ["ns/w"]).2 0 "a" = some (TExpr.placeholder "v")) := by
  have h := C10_weights_shared_across_instances ⟨0, []⟩ "a" (TExpr.placeholder "v")
    "ns/w" (by decide)
  exact ⟨h.1, h.2.1, h.2.2.1, h.2.2.2⟩
